import Mathlib

/-!
Shallow embedding of the analytics aggregation engine of this repository:
`src/backend/src/repositories/analytics.py` and
`src/backend/src/routes/analytics/routes.py`.

Conventions used throughout:
* timestamps (`datetime`) are integers counting seconds; `timedelta(hours=24)`
  is `86400`, `timedelta(days=n)` is `86400 * n`, and `timedelta.days` is
  flooring division by `86400` (`Int.fdiv`), matching Python semantics;
* `Decimal` / float arithmetic is modelled over `ℚ` (the formulas involved are
  ratios, sums and products, which `ℚ` models exactly; `Python int(x)` on a
  non-negative product `n * 0.95` is modelled as the exact floor `n * 95 / 100`);
* a SQL query over the `agent_executions` table is modelled as `List.filter`
  over a list of rows, followed by a sort where the query orders; `SUM`,
  `COUNT` and `AVG` are folds.  SQL `SUM`/`AVG` of no rows is `NULL`, which the
  Python code coalesces via `or 0`; the folds return that `0` directly.
-/

/-- Execution status enum (`src/utils/enums.py`, `ExecutionStatus`). -/
inductive ExecutionStatus
  | pending
  | running
  | success
  | failure
  | timeout
  | cancelled
  deriving DecidableEq, Repr

/-- Budget alert scope enum (`src/utils/enums.py`, `BudgetScope`). -/
inductive BudgetScope
  | user
  | agent
  | flow
  | global_
  deriving DecidableEq, Repr

/-- One row of the `agent_executions` table, restricted to the columns the
analytics aggregation reads. -/
structure AgentExecution where
  user_id : Nat
  agent_id : Option Nat
  agent_name : Option String
  agent_type : Option String
  model_name : Option String
  status : ExecutionStatus
  execution_time_ms : Int
  input_tokens : Int
  output_tokens : Int
  total_tokens : Int
  cost_usd : ℚ
  started_at : Int
  deriving DecidableEq, Repr

/-- One row of the `budget_alerts` table, restricted to the columns
`check_budget_exceeded` reads. -/
structure BudgetAlert where
  user_id : Nat
  is_active : Bool
  scope : BudgetScope
  scope_id : Option Nat
  threshold_usd : ℚ
  period_days : Int
  alert_at_percentage : ℚ
  deriving DecidableEq, Repr

/-- The optional `user_id` filter: SQL `user_id == user_id` appended only when
a user id is supplied (`if user_id:` in the Python code). -/
def userMatch (uid : Option Nat) (ex : AgentExecution) : Bool :=
  match uid with
  | none => true
  | some u => decide (ex.user_id = u)

/-- `get_overview` window filter (`analytics.py` lines 179-184):
`started_at >= start_date`, `started_at <= end_date`, plus the optional user
filter.  Both bounds are inclusive in the code. -/
def currentExecs (exs : List AgentExecution) (uid : Option Nat) (s e : Int) :
    List AgentExecution :=
  exs.filter fun ex =>
    decide (s ≤ ex.started_at) && decide (ex.started_at ≤ e) && userMatch uid ex

/-- `get_overview` previous-period filter (`analytics.py` lines 291-300):
`prev_start = start_date - period_length`, `prev_end = start_date`, with
`started_at >= prev_start` and `started_at < prev_end`. -/
def prevExecs (exs : List AgentExecution) (uid : Option Nat) (s len : Int) :
    List AgentExecution :=
  exs.filter fun ex =>
    decide (s - len ≤ ex.started_at) && decide (ex.started_at < s) && userMatch uid ex

/-- SQL `SUM(CASE WHEN status = st THEN 1 ELSE 0 END)` over a row list. -/
def countWithStatus (st : ExecutionStatus) (l : List AgentExecution) : Nat :=
  (l.filter fun ex => decide (ex.status = st)).length

/-- SQL `SUM(cost_usd)` coalesced with `or 0`. -/
def sumCost (l : List AgentExecution) : ℚ :=
  (l.map (·.cost_usd)).sum

/-- SQL `AVG(execution_time_ms)` coalesced with `or 0`
(`float(metrics.avg_time or 0)`). -/
def avgTime (l : List AgentExecution) : ℚ :=
  if l.length = 0 then 0 else ((l.map (·.execution_time_ms)).sum : ℚ) / l.length

/-- `success_rate = successful / total * 100 if total > 0 else 0`
(`analytics.py` lines 208-212 and the analogous per-group formulas). -/
def successRate (succ total : Nat) : ℚ :=
  if 0 < total then (succ : ℚ) / (total : ℚ) * 100 else 0

/-- `calc_change` (`analytics.py` lines 320-323): `None` when the previous
value is `0`, else `(current - previous) / previous * 100`. -/
def calc_change (current previous : ℚ) : Option ℚ :=
  if previous = 0 then none else some ((current - previous) / previous * 100)

/-- The sorted positive execution times (`analytics.py` lines 215-219):
select `execution_time_ms` where `execution_time_ms > 0` (within the window
filter), ordered ascending. -/
def sortedTimes (l : List AgentExecution) : List Int :=
  List.insertionSort (· ≤ ·)
    ((l.filter fun ex => decide (0 < ex.execution_time_ms)).map (·.execution_time_ms))

/-- `times[i] if times else 0`: the nearest-rank lookup used for the
percentiles (`analytics.py` lines 221-223). -/
def nearestRank (times : List Int) (i : Nat) : Int :=
  if times.isEmpty then 0 else times.getD i 0

/-- `estimated_monthly_cost_usd` (`analytics.py` line 345):
`total_cost * 30 if period_length.days == 1 else
 total_cost * 30 / max(period_length.days, 1)`.
`period_length.days` is the floored day count of the window length. -/
def estimatedMonthly (total_cost : ℚ) (period_len : Int) : ℚ :=
  let days := Int.fdiv period_len 86400
  if days = 1 then total_cost * 30 else total_cost * 30 / ((max days 1 : Int) : ℚ)

/-- One row of the `GROUP BY model_name` cost query
(`analytics.py` lines 265-275). -/
structure ModelCostRow where
  model_name : Option String
  cost : ℚ
  count : Nat
  tokens : Int
  deriving Repr

/-- The `GROUP BY model_name` cost query (`analytics.py` lines 265-275):
rows with non-null `model_name`, grouped by name, ordered by cost descending. -/
def modelGroups (l : List AgentExecution) : List ModelCostRow :=
  let withModel := l.filter fun ex => ex.model_name.isSome
  let names := (withModel.filterMap (·.model_name)).dedup
  List.insertionSort (fun a b => b.cost ≤ a.cost)
    (names.map fun nm =>
      let grp := withModel.filter fun ex => decide (ex.model_name = some nm)
      { model_name := some nm
        cost := sumCost grp
        count := grp.length
        tokens := (grp.map (·.total_tokens)).sum })

/-- `CostBreakdownDTO` as built for `cost_by_model`
(`analytics.py` lines 278-288). -/
structure CostBreakdown where
  name : String
  category : String
  total_cost_usd : ℚ
  percentage : ℚ
  execution_count : Nat
  total_tokens : Int
  deriving Repr

/-- Builds one `CostBreakdownDTO` from a grouped row
(`analytics.py` lines 279-286): `percentage = row.cost / total_cost * 100 if
total_cost > 0 else 0`. -/
def mkCostBreakdown (total_cost : ℚ) (r : ModelCostRow) : CostBreakdown :=
  { name := r.model_name.getD "Unknown"
    category := "model"
    total_cost_usd := r.cost
    percentage := if 0 < total_cost then r.cost / total_cost * 100 else 0
    execution_count := r.count
    total_tokens := r.tokens }

/-- One row of the top-agents `GROUP BY` query (`analytics.py` lines 226-246). -/
structure AgentGroupRow where
  agent_name : Option String
  agent_id : Option Nat
  agent_type : Option String
  count : Nat
  success_count : Nat
  failure_count : Nat
  avg_time : ℚ
  total_tokens : Int
  total_cost : ℚ
  deriving Repr

/-- The top-agents query (`analytics.py` lines 226-246): rows with non-null
`agent_name`, grouped by `(agent_name, agent_id, agent_type)`, ordered by
count descending, limited to 10. -/
def agentGroups (l : List AgentExecution) : List AgentGroupRow :=
  let named := l.filter fun ex => ex.agent_name.isSome
  let keys := (named.map fun ex => (ex.agent_name, ex.agent_id, ex.agent_type)).dedup
  (List.insertionSort (fun a b => b.count ≤ a.count)
    (keys.map fun k =>
      let grp := named.filter fun ex =>
        decide ((ex.agent_name, ex.agent_id, ex.agent_type) = k)
      { agent_name := k.1
        agent_id := k.2.1
        agent_type := k.2.2
        count := grp.length
        success_count := countWithStatus ExecutionStatus.success grp
        failure_count := countWithStatus ExecutionStatus.failure grp
        avg_time := avgTime grp
        total_tokens := (grp.map (·.total_tokens)).sum
        total_cost := sumCost grp })).take 10

/-- `TopAgentDTO` (`analytics.py` lines 248-262). -/
structure TopAgent where
  agent_name : String
  agent_id : Option Nat
  agent_type : Option String
  execution_count : Nat
  success_count : Nat
  failure_count : Nat
  success_rate : ℚ
  avg_execution_time_ms : ℚ
  total_tokens : Int
  total_cost_usd : ℚ
  deriving Repr

/-- Builds one `TopAgentDTO` from a grouped row (`analytics.py` lines 249-260):
`success_rate = (row.success_count or 0) / row.count * 100 if row.count > 0
else 0`. -/
def mkTopAgent (r : AgentGroupRow) : TopAgent :=
  { agent_name := r.agent_name.getD "Unknown"
    agent_id := r.agent_id
    agent_type := r.agent_type
    execution_count := r.count
    success_count := r.success_count
    failure_count := r.failure_count
    success_rate := if 0 < r.count then (r.success_count : ℚ) / (r.count : ℚ) * 100 else 0
    avg_execution_time_ms := r.avg_time
    total_tokens := r.total_tokens
    total_cost_usd := r.total_cost }

/-- `AnalyticsOverviewDTO` (`analytics.py` lines 332-353). -/
structure AnalyticsOverview where
  total_executions : Nat
  successful_executions : Nat
  failed_executions : Nat
  success_rate : ℚ
  avg_execution_time_ms : ℚ
  p50_execution_time_ms : ℚ
  p95_execution_time_ms : ℚ
  p99_execution_time_ms : ℚ
  total_input_tokens : Int
  total_output_tokens : Int
  total_tokens : Int
  total_cost_usd : ℚ
  estimated_monthly_cost_usd : ℚ
  executions_change_percent : Option ℚ
  execution_time_change_percent : Option ℚ
  success_rate_change_percent : Option ℚ
  cost_change_percent : Option ℚ
  active_agents_count : Nat
  top_agents : List TopAgent
  cost_by_model : List CostBreakdown
  deriving Repr

/-- `AgentExecutionRepository.get_overview` (`analytics.py` lines 164-353).
Inputs: the execution table, the optional owner filter, the optional window
bounds and the current time (`datetime.utcnow()`).  Dates default to the 24
hours ending now. -/
def get_overview (exs : List AgentExecution) (uid : Option Nat)
    (start_date : Option Int) (end_date : Option Int) (now : Int) :
    AnalyticsOverview :=
  let e := end_date.getD now
  let s := start_date.getD (e - 86400)
  let cur := currentExecs exs uid s e
  let total := cur.length
  let successful := countWithStatus ExecutionStatus.success cur
  let times := sortedTimes cur
  let p50 := nearestRank times (times.length / 2)
  let p95 := nearestRank times (times.length * 95 / 100)
  let p99 := nearestRank times (times.length * 99 / 100)
  let total_cost := sumCost cur
  let period_length := e - s
  let prev := prevExecs exs uid s period_length
  let prev_total := prev.length
  let prev_successful := countWithStatus ExecutionStatus.success prev
  { total_executions := total
    successful_executions := successful
    failed_executions := countWithStatus ExecutionStatus.failure cur
    success_rate := successRate successful total
    avg_execution_time_ms := avgTime cur
    p50_execution_time_ms := (p50 : ℚ)
    p95_execution_time_ms := (p95 : ℚ)
    p99_execution_time_ms := (p99 : ℚ)
    total_input_tokens := (cur.map (·.input_tokens)).sum
    total_output_tokens := (cur.map (·.output_tokens)).sum
    total_tokens := (cur.map (·.total_tokens)).sum
    total_cost_usd := total_cost
    estimated_monthly_cost_usd := estimatedMonthly total_cost period_length
    executions_change_percent := calc_change (total : ℚ) (prev_total : ℚ)
    execution_time_change_percent := calc_change (avgTime cur) (avgTime prev)
    success_rate_change_percent :=
      calc_change (successRate successful total) (successRate prev_successful prev_total)
    cost_change_percent := calc_change total_cost (sumCost prev)
    active_agents_count := ((cur.filterMap (·.agent_id)).dedup).length
    top_agents := (agentGroups cur).map mkTopAgent
    cost_by_model := (modelGroups cur).map (mkCostBreakdown total_cost) }

/-- The optional filters of `list_paginated` (`analytics.py` lines 96-111). -/
structure ExecutionFilters where
  user_id : Option Nat := none
  agent_id : Option Nat := none
  agent_type : Option String := none
  model_name : Option String := none
  status : Option ExecutionStatus := none
  start_date : Option Int := none
  end_date : Option Int := none
  deriving Repr

/-- Conjunction of the supplied filters (`analytics.py` lines 96-111):
`started_at >= start_date` and `started_at <= end_date`, equality elsewhere. -/
def matchesFilters (f : ExecutionFilters) (ex : AgentExecution) : Bool :=
  (match f.user_id with | none => true | some u => decide (ex.user_id = u)) &&
  (match f.agent_id with | none => true | some a => decide (ex.agent_id = some a)) &&
  (match f.agent_type with | none => true | some t => decide (ex.agent_type = some t)) &&
  (match f.model_name with | none => true | some m => decide (ex.model_name = some m)) &&
  (match f.status with | none => true | some st => decide (ex.status = st)) &&
  (match f.start_date with | none => true | some s => decide (s ≤ ex.started_at)) &&
  (match f.end_date with | none => true | some e => decide (ex.started_at ≤ e))

/-- `PaginatedExecutionsDTO` (`analytics.py` lines 139-162); items carry the
full row here (the DTO projection drops no row). -/
structure PaginatedExecutions where
  items : List AgentExecution
  total : Nat
  page : Nat
  page_size : Nat
  total_pages : Nat
  deriving Repr

/-- `AgentExecutionRepository.list_paginated` (`analytics.py` lines 80-162).
The sort column (`getattr(self.model, sort_by, started_at)`) is modelled by a
key function, `sort_order == "desc"` by a boolean.  `offset = (page - 1) *
page_size`, `limit page_size`, `total_pages = (total + page_size - 1) //
page_size`. -/
def list_paginated (exs : List AgentExecution) (f : ExecutionFilters)
    (page page_size : Nat) (key : AgentExecution → Int) (descOrder : Bool) :
    PaginatedExecutions :=
  let matched := exs.filter (matchesFilters f)
  let total := matched.length
  let sorted :=
    if descOrder then List.insertionSort (fun a b => key b ≤ key a) matched
    else List.insertionSort (fun a b => key a ≤ key b) matched
  { items := (sorted.drop ((page - 1) * page_size)).take page_size
    total := total
    page := page
    page_size := page_size
    total_pages := (total + page_size - 1) / page_size }

/-- `export_analytics_data` (`routes.py` lines 441-466), data-selection part:
one `list_paginated` call with `page=1`, `page_size=10000`, user filter and the
window; the output is the pair (exported records, `total_records`). -/
def export_analytics_data (exs : List AgentExecution) (uid : Nat)
    (start_date end_date : Option Int) (key : AgentExecution → Int)
    (descOrder : Bool) : List AgentExecution × Nat :=
  let p := list_paginated exs
    { user_id := some uid, start_date := start_date, end_date := end_date }
    1 10000 key descOrder
  (p.items, p.total)

/-- One entry of the `compare_models` response (`routes.py` lines 610-624). -/
structure ModelComparisonEntry where
  model_name : Option String
  execution_count : Nat
  success_count : Nat
  success_rate : ℚ
  avg_execution_time_ms : ℚ
  avg_tokens : ℚ
  total_tokens : Int
  total_cost_usd : ℚ
  deriving Repr

/-- The filtered rows of `compare_models` (`routes.py` lines 582-587): the
caller's executions in `[start, end]` with non-null `model_name`. -/
def compareRows (exs : List AgentExecution) (uid : Nat) (s e : Int) :
    List AgentExecution :=
  exs.filter fun ex =>
    decide (ex.user_id = uid) && decide (s ≤ ex.started_at) &&
    decide (ex.started_at ≤ e) && ex.model_name.isSome

/-- One output row of `compare_models` (`routes.py` lines 610-624), built from
the rows grouped under one model name: `success_rate = (success_count or 0) /
execution_count * 100 if execution_count > 0 else 0`; `AVG` columns coalesced
with `or 0`. -/
def mkModelComparison (grp : List AgentExecution) (nm : String) :
    ModelComparisonEntry :=
  { model_name := some nm
    execution_count := grp.length
    success_count := countWithStatus ExecutionStatus.success grp
    success_rate :=
      if 0 < grp.length then
        ((countWithStatus ExecutionStatus.success grp : ℚ) / (grp.length : ℚ)) * 100
      else 0
    avg_execution_time_ms := avgTime grp
    avg_tokens :=
      if grp.length = 0 then 0
      else ((grp.map (·.total_tokens)).sum : ℚ) / (grp.length : ℚ)
    total_tokens := (grp.map (·.total_tokens)).sum
    total_cost_usd := sumCost grp }

/-- `compare_models` (`routes.py` lines 557-624): group the filtered rows by
`model_name`, one output row per group, ordered by execution count
descending. -/
def compare_models (exs : List AgentExecution) (uid : Nat) (s e : Int) :
    List ModelComparisonEntry :=
  let rows := compareRows exs uid s e
  let names := (rows.filterMap (·.model_name)).dedup
  List.insertionSort (fun a b => b.execution_count ≤ a.execution_count)
    (names.map fun nm =>
      mkModelComparison (rows.filter fun ex => decide (ex.model_name = some nm)) nm)

/-- `CostForecastDTO` (`analytics.py` lines 556-563). -/
structure CostForecast where
  current_period_cost_usd : ℚ
  projected_monthly_cost_usd : ℚ
  projected_weekly_cost_usd : ℚ
  daily_average_cost_usd : ℚ
  cost_trend : String
  trend_percentage : ℚ
  deriving Repr

/-- The last-7-days rows of `get_cost_forecast` (`analytics.py` lines
516-527): `started_at >= now - 7 days` plus the optional user filter. -/
def forecastCurrentExecs (exs : List AgentExecution) (uid : Option Nat)
    (now : Int) : List AgentExecution :=
  exs.filter fun ex => decide (now - 7 * 86400 ≤ ex.started_at) && userMatch uid ex

/-- The preceding-7-days rows of `get_cost_forecast` (`analytics.py` lines
516-527): `now - 14 days <= started_at < now - 7 days` plus the user filter. -/
def forecastPrevExecs (exs : List AgentExecution) (uid : Option Nat)
    (now : Int) : List AgentExecution :=
  exs.filter fun ex =>
    decide (now - 14 * 86400 ≤ ex.started_at) &&
    decide (ex.started_at < now - 7 * 86400) && userMatch uid ex

/-- `AgentExecutionRepository.get_cost_forecast` (`analytics.py` lines
510-563). -/
def get_cost_forecast (exs : List AgentExecution) (uid : Option Nat)
    (now : Int) : CostForecast :=
  let current_cost := sumCost (forecastCurrentExecs exs uid now)
  let prev_cost := sumCost (forecastPrevExecs exs uid now)
  let daily_avg := current_cost / 7
  let monthly_projected := daily_avg * 30
  if 0 < prev_cost then
    let change := (current_cost - prev_cost) / prev_cost * 100
    { current_period_cost_usd := current_cost
      projected_monthly_cost_usd := monthly_projected
      projected_weekly_cost_usd := current_cost
      daily_average_cost_usd := daily_avg
      cost_trend :=
        if 10 < change then "increasing"
        else if change < -10 then "decreasing"
        else "stable"
      trend_percentage := change }
  else
    { current_period_cost_usd := current_cost
      projected_monthly_cost_usd := monthly_projected
      projected_weekly_cost_usd := current_cost
      daily_average_cost_usd := daily_avg
      cost_trend := "stable"
      trend_percentage := 0 }

/-- `BudgetAlertRepository.get_active_by_user` (`analytics.py` lines
599-611): the user's alerts with `is_active == True`. -/
def get_active_by_user (alerts : List BudgetAlert) (uid : Nat) :
    List BudgetAlert :=
  alerts.filter fun a => decide (a.user_id = uid) && a.is_active

/-- The spend recomputed for one alert inside `check_budget_exceeded`
(`analytics.py` lines 620-634): sum of `cost_usd` over the owner's executions
with `started_at >= now - period_days`, restricted to the alert's agent when
`scope == "agent"` and `scope_id` is non-null. -/
def alertSpend (exs : List AgentExecution) (uid : Nat) (now : Int)
    (alert : BudgetAlert) : ℚ :=
  sumCost (exs.filter fun ex =>
    decide (ex.user_id = uid) &&
    decide (now - alert.period_days * 86400 ≤ ex.started_at) &&
    (if alert.scope = BudgetScope.agent ∧ alert.scope_id.isSome then
      decide (ex.agent_id = alert.scope_id)
    else true))

/-- The owner's total spend over a rolling period, with no scope restriction
(the unscoped branch of the same query). -/
def ownerSpend (exs : List AgentExecution) (uid : Nat) (now : Int)
    (period_days : Int) : ℚ :=
  sumCost (exs.filter fun ex =>
    decide (ex.user_id = uid) && decide (now - period_days * 86400 ≤ ex.started_at))

/-- `BudgetAlertRepository.check_budget_exceeded` (`analytics.py` lines
613-641): for each active alert of the user, recompute the spend and keep the
alert (with its spend) when
`spend >= threshold_usd * alert_at_percentage / 100`. -/
def check_budget_exceeded (alerts : List BudgetAlert)
    (exs : List AgentExecution) (uid : Nat) (now : Int) :
    List (BudgetAlert × ℚ) :=
  (get_active_by_user alerts uid).filterMap fun alert =>
    let current_spend := alertSpend exs uid now alert
    let threshold := alert.threshold_usd * alert.alert_at_percentage / 100
    if threshold ≤ current_spend then some (alert, current_spend) else none

/-! Concrete rows used by witnesses and counterexamples. -/

/-- A successful execution row with time 30 ms, started at 5. -/
def exSuccess30 : AgentExecution :=
  { user_id := 1, agent_id := some 1, agent_name := some "alpha"
    agent_type := some "genai", model_name := some "m1"
    status := ExecutionStatus.success, execution_time_ms := 30
    input_tokens := 1, output_tokens := 2, total_tokens := 3
    cost_usd := 1, started_at := 5 }

/-- A successful execution row with time 10 ms, started at 6. -/
def exSuccess10 : AgentExecution :=
  { exSuccess30 with
    execution_time_ms := 10
    started_at := 6 }

/-- A failed execution row with time 20 ms, started at 7. -/
def exFailure20 : AgentExecution :=
  { exSuccess30 with
    status := ExecutionStatus.failure
    execution_time_ms := 20
    started_at := 7 }

/-- An execution row in the previous-period window (started at -10), cost 2. -/
def exPrev2 : AgentExecution :=
  { exSuccess30 with
    started_at := -10
    cost_usd := 2 }

/-- An active user-scoped alert: threshold 100, rolling 30 days, alert at 80%. -/
def alert100_80 : BudgetAlert :=
  { user_id := 1
    is_active := true
    scope := BudgetScope.user
    scope_id := none
    threshold_usd := 100
    period_days := 30
    alert_at_percentage := 80 }

/-- The same alert with scope `flow` (no scope restriction is applied to it). -/
def alertFlow : BudgetAlert :=
  { alert100_80 with
    scope := BudgetScope.flow }

/-- An execution row of user 1 costing 79.99. -/
def exSpend79 : AgentExecution :=
  { exSuccess30 with
    cost_usd := 7999 / 100 }

/-- An execution row of user 1 costing exactly 80.00. -/
def exSpend80 : AgentExecution :=
  { exSuccess30 with
    cost_usd := 80 }

/-- An execution row started exactly at the window's end bound (100). -/
def exAtEnd : AgentExecution :=
  { exSuccess30 with
    started_at := 100 }

/-! Projection lemmas: each field of `get_overview` (with explicit window
bounds) unfolded to the helper it is computed from.  All hold by `rfl`. -/

/-- `total_executions` is the size of the filtered window. -/
theorem overview_total_executions (exs : List AgentExecution) (uid : Option Nat)
    (s e now : Int) :
    (get_overview exs uid (some s) (some e) now).total_executions =
      (currentExecs exs uid s e).length := rfl

/-- `successful_executions` is the success count of the filtered window. -/
theorem overview_successful_executions (exs : List AgentExecution)
    (uid : Option Nat) (s e now : Int) :
    (get_overview exs uid (some s) (some e) now).successful_executions =
      countWithStatus ExecutionStatus.success (currentExecs exs uid s e) := rfl

/-- `success_rate` is the guarded ratio over the filtered window. -/
theorem overview_success_rate (exs : List AgentExecution) (uid : Option Nat)
    (s e now : Int) :
    (get_overview exs uid (some s) (some e) now).success_rate =
      successRate (countWithStatus ExecutionStatus.success (currentExecs exs uid s e))
        (currentExecs exs uid s e).length := rfl

/-- `total_cost_usd` is the summed cost of the filtered window. -/
theorem overview_total_cost (exs : List AgentExecution) (uid : Option Nat)
    (s e now : Int) :
    (get_overview exs uid (some s) (some e) now).total_cost_usd =
      sumCost (currentExecs exs uid s e) := rfl

/-- `cost_by_model` maps the grouped model rows through `mkCostBreakdown`. -/
theorem overview_cost_by_model (exs : List AgentExecution) (uid : Option Nat)
    (s e now : Int) :
    (get_overview exs uid (some s) (some e) now).cost_by_model =
      (modelGroups (currentExecs exs uid s e)).map
        (mkCostBreakdown (sumCost (currentExecs exs uid s e))) := rfl

/-- `top_agents` maps the grouped agent rows through `mkTopAgent`. -/
theorem overview_top_agents (exs : List AgentExecution) (uid : Option Nat)
    (s e now : Int) :
    (get_overview exs uid (some s) (some e) now).top_agents =
      (agentGroups (currentExecs exs uid s e)).map mkTopAgent := rfl

/-- `estimated_monthly_cost_usd` is the extrapolation over the window length. -/
theorem overview_estimated_monthly (exs : List AgentExecution)
    (uid : Option Nat) (s e now : Int) :
    (get_overview exs uid (some s) (some e) now).estimated_monthly_cost_usd =
      estimatedMonthly (sumCost (currentExecs exs uid s e)) (e - s) := rfl

/-- `executions_change_percent` compares against the previous window. -/
theorem overview_executions_change (exs : List AgentExecution)
    (uid : Option Nat) (s e now : Int) :
    (get_overview exs uid (some s) (some e) now).executions_change_percent =
      calc_change ((currentExecs exs uid s e).length : ℚ)
        ((prevExecs exs uid s (e - s)).length : ℚ) := rfl

/-- `execution_time_change_percent` compares against the previous window. -/
theorem overview_time_change (exs : List AgentExecution) (uid : Option Nat)
    (s e now : Int) :
    (get_overview exs uid (some s) (some e) now).execution_time_change_percent =
      calc_change (avgTime (currentExecs exs uid s e))
        (avgTime (prevExecs exs uid s (e - s))) := rfl

/-- `success_rate_change_percent` compares against the previous window. -/
theorem overview_success_rate_change (exs : List AgentExecution)
    (uid : Option Nat) (s e now : Int) :
    (get_overview exs uid (some s) (some e) now).success_rate_change_percent =
      calc_change
        (successRate (countWithStatus ExecutionStatus.success (currentExecs exs uid s e))
          (currentExecs exs uid s e).length)
        (successRate (countWithStatus ExecutionStatus.success (prevExecs exs uid s (e - s)))
          (prevExecs exs uid s (e - s)).length) := rfl

/-- `cost_change_percent` compares against the previous window. -/
theorem overview_cost_change (exs : List AgentExecution) (uid : Option Nat)
    (s e now : Int) :
    (get_overview exs uid (some s) (some e) now).cost_change_percent =
      calc_change (sumCost (currentExecs exs uid s e))
        (sumCost (prevExecs exs uid s (e - s))) := rfl

/-- With no dates supplied the window defaults to `[now - 24h, now]`. -/
theorem overview_default_window (exs : List AgentExecution) (uid : Option Nat)
    (now : Int) :
    get_overview exs uid none none now =
      get_overview exs uid (some (now - 86400)) (some now) now := rfl

/-- Percentile-index lemma: `nearestRank` at the Python index (`len // 2`,
`int(len * 0.95)`, `int(len * 0.99)`) is `List.getD` at `⌊p·n⌋`. -/
theorem nearestRank_eq_getD (ts : List Int) (i : Nat) :
    nearestRank ts i = ts.getD i 0 := by
  unfold nearestRank
  cases ts with
  | nil => simp
  | cons a l => simp

/-- C1: the overview percentiles come from the positive `execution_time_ms`
values of the filtered window, sorted ascending; `p50`, `p95`, `p99` are the
elements at indices `⌊0.50·n⌋`, `⌊0.95·n⌋`, `⌊0.99·n⌋` (all in bounds for
nonempty samples), and all three are `0` on an empty sample. -/
theorem C1_overview_percentiles (exs : List AgentExecution) (uid : Option Nat)
    (s e now : Int) (ts : List Int)
    (hts : ts = sortedTimes (currentExecs exs uid s e)) :
    List.Sorted (· ≤ ·) ts ∧
    ts.Perm (((currentExecs exs uid s e).filter
      fun ex => decide (0 < ex.execution_time_ms)).map (·.execution_time_ms)) ∧
    (get_overview exs uid (some s) (some e) now).p50_execution_time_ms =
      ((ts.getD (ts.length * 50 / 100) 0 : Int) : ℚ) ∧
    (get_overview exs uid (some s) (some e) now).p95_execution_time_ms =
      ((ts.getD (ts.length * 95 / 100) 0 : Int) : ℚ) ∧
    (get_overview exs uid (some s) (some e) now).p99_execution_time_ms =
      ((ts.getD (ts.length * 99 / 100) 0 : Int) : ℚ) ∧
    (ts ≠ [] →
      ts.length * 50 / 100 < ts.length ∧
      ts.length * 95 / 100 < ts.length ∧
      ts.length * 99 / 100 < ts.length) ∧
    (ts = [] →
      (get_overview exs uid (some s) (some e) now).p50_execution_time_ms = 0 ∧
      (get_overview exs uid (some s) (some e) now).p95_execution_time_ms = 0 ∧
      (get_overview exs uid (some s) (some e) now).p99_execution_time_ms = 0) :=
  by
  subst hts
  refine ⟨List.sorted_insertionSort _ _, List.perm_insertionSort _ _, ?_, ?_, ?_, ?_, ?_⟩
  · show ((nearestRank (sortedTimes (currentExecs exs uid s e))
      ((sortedTimes (currentExecs exs uid s e)).length / 2) : Int) : ℚ) = _
    rw [nearestRank_eq_getD]
    have hx : (sortedTimes (currentExecs exs uid s e)).length * 50 / 100 =
        (sortedTimes (currentExecs exs uid s e)).length / 2 := by omega
    rw [hx]
  · show ((nearestRank (sortedTimes (currentExecs exs uid s e))
      ((sortedTimes (currentExecs exs uid s e)).length * 95 / 100) : Int) : ℚ) = _
    rw [nearestRank_eq_getD]
  · show ((nearestRank (sortedTimes (currentExecs exs uid s e))
      ((sortedTimes (currentExecs exs uid s e)).length * 99 / 100) : Int) : ℚ) = _
    rw [nearestRank_eq_getD]
  · intro h
    have : 0 < (sortedTimes (currentExecs exs uid s e)).length :=
      List.length_pos.mpr h
    omega
  · intro h
    refine ⟨?_, ?_, ?_⟩ <;>
    · show ((nearestRank (sortedTimes (currentExecs exs uid s e)) _ : Int) : ℚ) = 0
      rw [h]
      simp [nearestRank]

/-- C1 witness: on a three-row window the sorted positive times are
`[10, 20, 30]`, the indices are in bounds, and `p50` is the element at
index `⌊0.50·3⌋ = 1`, namely `20`. -/
theorem C1_overview_percentiles_witness :
    sortedTimes (currentExecs [exSuccess30, exSuccess10, exFailure20] none 0 100) =
      [10, 20, 30] ∧
    (10 : ℤ) ≠ 0 ∧
    (get_overview [exSuccess30, exSuccess10, exFailure20] none (some 0) (some 100)
      0).p50_execution_time_ms = 20 := by
  have h := C1_overview_percentiles [exSuccess30, exSuccess10, exFailure20]
    none 0 100 0
    (sortedTimes (currentExecs [exSuccess30, exSuccess10, exFailure20] none 0 100))
    rfl
  refine ⟨by decide, by decide, ?_⟩
  rw [h.2.2.1]
  decide

/-- C2 counterexample: a window holding exactly one failed execution has
`total_executions = 1` yet `success_rate = 0`, so "`success_rate = 0` exactly
when `total = 0`" is false as stated. -/
theorem C2_success_rate_zero_counterexample :
    (get_overview [exFailure20] none (some 0) (some 100) 0).success_rate = 0 ∧
    (get_overview [exFailure20] none (some 0) (some 100) 0).total_executions ≠ 0 := by
  constructor
  · rw [overview_success_rate]
    have h0 : countWithStatus ExecutionStatus.success
        (currentExecs [exFailure20] none 0 100) = 0 := by decide
    have h1 : (currentExecs [exFailure20] none 0 100).length = 1 := by decide
    rw [h0, h1, successRate]
    norm_num
  · rw [overview_total_executions]
    decide

/-- C2 (amended): every ratio in the aggregation outputs is zero-guarded:
`success_rate = successful/total·100` when `total > 0` and `0` when
`total = 0`; each cost-breakdown percentage is `group_cost/total_cost·100`
when `total_cost > 0` and `0` when `total_cost = 0`; the per-group
success rates of the top-agents list and of `compare_models` follow the same
guarded formula.  (No division with a zero divisor is ever evaluated: each
ratio is taken only under its positivity guard.) -/
theorem C2_zero_guard_ratios (exs : List AgentExecution) (uid : Option Nat)
    (s e now : Int) (ruid : Nat) (rs re : Int) (o : AnalyticsOverview)
    (ho : o = get_overview exs uid (some s) (some e) now) :
    (0 < o.total_executions →
      o.success_rate = (o.successful_executions : ℚ) / (o.total_executions : ℚ) * 100) ∧
    (o.total_executions = 0 → o.success_rate = 0) ∧
    (∀ row ∈ o.cost_by_model,
      (0 < o.total_cost_usd →
        row.percentage = row.total_cost_usd / o.total_cost_usd * 100) ∧
      (o.total_cost_usd = 0 → row.percentage = 0)) ∧
    (∀ t ∈ o.top_agents,
      (0 < t.execution_count →
        t.success_rate = (t.success_count : ℚ) / (t.execution_count : ℚ) * 100) ∧
      (t.execution_count = 0 → t.success_rate = 0)) ∧
    (∀ entry ∈ compare_models exs ruid rs re,
      (0 < entry.execution_count →
        entry.success_rate =
          (entry.success_count : ℚ) / (entry.execution_count : ℚ) * 100) ∧
      (entry.execution_count = 0 → entry.success_rate = 0)) := by
  subst ho
  refine ⟨?_, ?_, ?_, ?_, ?_⟩
  · intro h
    rw [overview_total_executions] at h
    rw [overview_success_rate, overview_successful_executions,
      overview_total_executions, successRate, if_pos h]
  · intro h
    rw [overview_total_executions] at h
    rw [overview_success_rate, successRate, if_neg (by omega)]
  · intro row hrow
    rw [overview_cost_by_model] at hrow
    obtain ⟨r, _, hr⟩ := List.mem_map.1 hrow
    subst hr
    rw [overview_total_cost]
    constructor
    · intro h
      simp only [mkCostBreakdown]
      rw [if_pos h]
    · intro h
      simp only [mkCostBreakdown]
      rw [if_neg (by rw [h]; exact lt_irrefl 0)]
  · intro t ht
    rw [overview_top_agents] at ht
    obtain ⟨r, _, hr⟩ := List.mem_map.1 ht
    subst hr
    constructor
    · intro h
      simp only [mkTopAgent] at h ⊢
      rw [if_pos h]
    · intro h
      simp only [mkTopAgent] at h ⊢
      rw [if_neg (by omega)]
  · intro entry hentry
    simp only [compare_models] at hentry
    have hmem := (List.perm_insertionSort
      (fun a b : ModelComparisonEntry => b.execution_count ≤ a.execution_count)
      _).mem_iff.1 hentry
    obtain ⟨nm, _, hnm⟩ := List.mem_map.1 hmem
    subst hnm
    constructor
    · intro h
      simp only [mkModelComparison] at h ⊢
      rw [if_pos h]
    · intro h
      simp only [mkModelComparison] at h ⊢
      rw [if_neg (by omega)]

/-- `calc_change` is `None` exactly on a zero baseline. -/
theorem calc_change_none_iff (c p : ℚ) : calc_change c p = none ↔ p = 0 := by
  unfold calc_change
  split
  · simp_all
  · simp_all

/-- `calc_change` on a nonzero baseline is the relative change in percent. -/
theorem calc_change_some (c p : ℚ) (h : p ≠ 0) :
    calc_change c p = some ((c - p) / p * 100) := by
  unfold calc_change
  rw [if_neg h]

/-- C2 witness: on a window with one success and one failure, the guarded
formula from the theorem applies with `total = 2 > 0`. -/
theorem C2_zero_guard_ratios_witness :
    (get_overview [exSuccess30, exFailure20] none (some 0) (some 100) 0).success_rate =
      ((get_overview [exSuccess30, exFailure20] none (some 0) (some 100)
          0).successful_executions : ℚ) /
        ((get_overview [exSuccess30, exFailure20] none (some 0) (some 100)
          0).total_executions : ℚ) * 100 :=
  (C2_zero_guard_ratios [exSuccess30, exFailure20] none 0 100 0 1 0 100
    (get_overview [exSuccess30, exFailure20] none (some 0) (some 100) 0)
    rfl).1 (by decide)

/-- C3: the previous-period baseline is computed over the half-open window
`[start - length, start)` of the same length as the current window, and every
percent-change field of the overview is `(current - previous)/previous · 100`
when the previous value is nonzero and `None` (null) exactly when the previous
value is `0`. -/
theorem C3_previous_period_comparison (exs : List AgentExecution)
    (uid : Option Nat) (s e now : Int) (o : AnalyticsOverview)
    (ho : o = get_overview exs uid (some s) (some e) now) :
    (∀ ex, ex ∈ prevExecs exs uid s (e - s) ↔
      (ex ∈ exs ∧ s - (e - s) ≤ ex.started_at ∧ ex.started_at < s ∧
        userMatch uid ex = true)) ∧
    (o.executions_change_percent = none ↔
      ((prevExecs exs uid s (e - s)).length : ℚ) = 0) ∧
    (((prevExecs exs uid s (e - s)).length : ℚ) ≠ 0 →
      o.executions_change_percent = some
        ((((currentExecs exs uid s e).length : ℚ) -
            ((prevExecs exs uid s (e - s)).length : ℚ)) /
          ((prevExecs exs uid s (e - s)).length : ℚ) * 100)) ∧
    (o.execution_time_change_percent = none ↔
      avgTime (prevExecs exs uid s (e - s)) = 0) ∧
    (avgTime (prevExecs exs uid s (e - s)) ≠ 0 →
      o.execution_time_change_percent = some
        ((avgTime (currentExecs exs uid s e) - avgTime (prevExecs exs uid s (e - s))) /
          avgTime (prevExecs exs uid s (e - s)) * 100)) ∧
    (o.success_rate_change_percent = none ↔
      successRate (countWithStatus ExecutionStatus.success (prevExecs exs uid s (e - s)))
        (prevExecs exs uid s (e - s)).length = 0) ∧
    (successRate (countWithStatus ExecutionStatus.success (prevExecs exs uid s (e - s)))
        (prevExecs exs uid s (e - s)).length ≠ 0 →
      o.success_rate_change_percent = some
        ((successRate (countWithStatus ExecutionStatus.success (currentExecs exs uid s e))
            (currentExecs exs uid s e).length -
          successRate (countWithStatus ExecutionStatus.success (prevExecs exs uid s (e - s)))
            (prevExecs exs uid s (e - s)).length) /
          successRate (countWithStatus ExecutionStatus.success (prevExecs exs uid s (e - s)))
            (prevExecs exs uid s (e - s)).length * 100)) ∧
    (o.cost_change_percent = none ↔ sumCost (prevExecs exs uid s (e - s)) = 0) ∧
    (sumCost (prevExecs exs uid s (e - s)) ≠ 0 →
      o.cost_change_percent = some
        ((sumCost (currentExecs exs uid s e) - sumCost (prevExecs exs uid s (e - s))) /
          sumCost (prevExecs exs uid s (e - s)) * 100)) := by
  subst ho
  refine ⟨?_, ?_, ?_, ?_, ?_, ?_, ?_, ?_, ?_⟩
  · intro ex
    simp [prevExecs, List.mem_filter, and_assoc]
  · rw [overview_executions_change, calc_change_none_iff]
  · intro h
    rw [overview_executions_change, calc_change_some _ _ h]
  · rw [overview_time_change, calc_change_none_iff]
  · intro h
    rw [overview_time_change, calc_change_some _ _ h]
  · rw [overview_success_rate_change, calc_change_none_iff]
  · intro h
    rw [overview_success_rate_change, calc_change_some _ _ h]
  · rw [overview_cost_change, calc_change_none_iff]
  · intro h
    rw [overview_cost_change, calc_change_some _ _ h]

/-- C3 witness: with one current-window row of cost 1 and one baseline row of
cost 2, the baseline is nonzero and the cost change is the relative change. -/
theorem C3_previous_period_comparison_witness :
    (get_overview [exSuccess30, exPrev2] none (some 0) (some 100)
        0).cost_change_percent =
      some ((sumCost (currentExecs [exSuccess30, exPrev2] none 0 100) -
          sumCost (prevExecs [exSuccess30, exPrev2] none 0 (100 - 0))) /
        sumCost (prevExecs [exSuccess30, exPrev2] none 0 (100 - 0)) * 100) := by
  have h := C3_previous_period_comparison [exSuccess30, exPrev2] none 0 100 0
    (get_overview [exSuccess30, exPrev2] none (some 0) (some 100) 0) rfl
  refine h.2.2.2.2.2.2.2.2 ?_
  have hp : prevExecs [exSuccess30, exPrev2] none 0 (100 - 0) = [exPrev2] := by
    decide
  rw [hp]
  show exPrev2.cost_usd + 0 ≠ 0
  norm_num [exPrev2]

/-- C4: an active alert is reported by the budget-exceeded check if and only
if the recomputed spend over its rolling period is at least
`threshold_usd * alert_at_percentage / 100`; with threshold 100 and trigger
percentage 80, a spend of 79.99 is not reported and a spend of exactly 80.00
is. -/
theorem C4_budget_exceeded_iff (alerts : List BudgetAlert)
    (exs : List AgentExecution) (uid : Nat) (now : Int) (a : BudgetAlert)
    (spend : ℚ) :
    ((a, spend) ∈ check_budget_exceeded alerts exs uid now ↔
      (a ∈ get_active_by_user alerts uid ∧ spend = alertSpend exs uid now a ∧
        a.threshold_usd * a.alert_at_percentage / 100 ≤ spend)) ∧
    check_budget_exceeded [alert100_80] [exSpend79] 1 10 = [] ∧
    check_budget_exceeded [alert100_80] [exSpend80] 1 10 = [(alert100_80, 80)] := by
  refine ⟨?_, ?_, ?_⟩
  · unfold check_budget_exceeded
    constructor
    · intro h
      obtain ⟨x, hx, hfx⟩ := List.mem_filterMap.1 h
      dsimp only at hfx
      by_cases hc :
        x.threshold_usd * x.alert_at_percentage / 100 ≤ alertSpend exs uid now x
      · rw [if_pos hc] at hfx
        obtain ⟨h1, h2⟩ := Prod.mk.injEq .. ▸ Option.some.injEq .. ▸ hfx
        subst h1
        subst h2
        exact ⟨hx, rfl, hc⟩
      · rw [if_neg hc] at hfx
        cases hfx
    · rintro ⟨ha, rfl, hth⟩
      refine List.mem_filterMap.2 ⟨a, ha, ?_⟩
      dsimp only
      rw [if_pos hth]
  · show List.filterMap _ (get_active_by_user [alert100_80] 1) = []
    have hact : get_active_by_user [alert100_80] 1 = [alert100_80] := rfl
    rw [hact]
    have hspend : alertSpend [exSpend79] 1 10 alert100_80 = 7999 / 100 := by
      have hfilt : ([exSpend79].filter fun ex =>
          decide (ex.user_id = 1) &&
          decide ((10 : Int) - alert100_80.period_days * 86400 ≤ ex.started_at) &&
          (if alert100_80.scope = BudgetScope.agent ∧ alert100_80.scope_id.isSome
            then decide (ex.agent_id = alert100_80.scope_id) else true)) =
          [exSpend79] := rfl
      show sumCost _ = 7999 / 100
      rw [hfilt]
      show exSpend79.cost_usd + 0 = 7999 / 100
      norm_num [exSpend79]
    rw [List.filterMap]
    dsimp only
    rw [hspend]
    rw [if_neg (by norm_num [alert100_80])]
    rfl
  · show List.filterMap _ (get_active_by_user [alert100_80] 1) = _
    have hact : get_active_by_user [alert100_80] 1 = [alert100_80] := rfl
    rw [hact]
    have hspend : alertSpend [exSpend80] 1 10 alert100_80 = 80 := by
      have hfilt : ([exSpend80].filter fun ex =>
          decide (ex.user_id = 1) &&
          decide ((10 : Int) - alert100_80.period_days * 86400 ≤ ex.started_at) &&
          (if alert100_80.scope = BudgetScope.agent ∧ alert100_80.scope_id.isSome
            then decide (ex.agent_id = alert100_80.scope_id) else true)) =
          [exSpend80] := rfl
      show sumCost _ = 80
      rw [hfilt]
      show exSpend80.cost_usd + 0 = 80
      norm_num [exSpend80]
    rw [List.filterMap]
    dsimp only
    rw [hspend]
    rw [if_pos (by norm_num [alert100_80])]
    rfl

/-- C4 witness: the alert of the 80.00 case satisfies the general
characterization: it is reported because `80 ≥ 100 · 80 / 100`. -/
theorem C4_budget_exceeded_iff_witness :
    (alert100_80, (80 : ℚ)) ∈ check_budget_exceeded [alert100_80] [exSpend80] 1 10 := by
  have h := C4_budget_exceeded_iff [alert100_80] [exSpend80] 1 10 alert100_80 80
  rw [h.2.2]
  exact List.mem_singleton.2 rfl

/-- C10: the budget check restricts to a single agent only when the alert's
scope is `agent` and its `scope_id` is non-null; in every other case the
recomputed spend is the owner's total spend over the rolling period,
identical to an unscoped user-level alert. -/
theorem C10_alert_scope_restriction (exs : List AgentExecution) (uid : Nat)
    (now : Int) (a : BudgetAlert) :
    (a.scope ≠ BudgetScope.agent ∨ a.scope_id = none →
      alertSpend exs uid now a = ownerSpend exs uid now a.period_days) ∧
    (∀ sid, a.scope = BudgetScope.agent → a.scope_id = some sid →
      alertSpend exs uid now a =
        sumCost (exs.filter fun ex =>
          decide (ex.user_id = uid) &&
          decide (now - a.period_days * 86400 ≤ ex.started_at) &&
          decide (ex.agent_id = some sid))) := by
  constructor
  · intro h
    have hc : ¬ (a.scope = BudgetScope.agent ∧ a.scope_id.isSome) := by
      rcases h with h | h
      · exact fun hx => h hx.1
      · exact fun hx => by rw [h] at hx; exact Bool.false_ne_true hx.2
    unfold alertSpend ownerSpend
    congr 1
    apply List.filter_congr
    intro ex _
    rw [if_neg hc, Bool.and_true]
  · intro sid h1 h2
    unfold alertSpend
    congr 1
    apply List.filter_congr
    intro ex _
    rw [if_pos ⟨h1, by rw [h2]; rfl⟩, h2]

/-- C10 witness: a flow-scoped alert's spend equals the owner's unscoped
spend over the same period. -/
theorem C10_alert_scope_restriction_witness :
    alertSpend [exSpend80] 1 10 alertFlow =
      ownerSpend [exSpend80] 1 10 alertFlow.period_days :=
  (C10_alert_scope_restriction [exSpend80] 1 10 alertFlow).1
    (Or.inl (by decide))

/-- C5 counterexample: the overview window filter is inclusive on both ends
(`started_at <= end_date` in the code), so an execution whose `started_at`
equals the window end is aggregated — the claim says it must be excluded. -/
theorem C5_window_end_counterexample :
    exAtEnd ∈ currentExecs [exAtEnd] none 0 100 ∧
    (get_overview [exAtEnd] none (some 0) (some 100) 0).total_executions = 1 := by
  constructor
  · decide
  · rw [overview_total_executions]
    decide

/-- C5 (amended): the overview aggregates exactly the executions whose
`started_at` lies in the closed window `[start, end]` (with the optional owner
filter) — an execution with `started_at` equal to `end` is included — and when
no dates are supplied the window defaults to the 24 hours ending now. -/
theorem C5_window_semantics (exs : List AgentExecution) (uid : Option Nat)
    (s e now : Int) (ex : AgentExecution) :
    (ex ∈ currentExecs exs uid s e ↔
      (ex ∈ exs ∧ s ≤ ex.started_at ∧ ex.started_at ≤ e ∧
        userMatch uid ex = true)) ∧
    (get_overview exs uid (some s) (some e) now).total_executions =
      (currentExecs exs uid s e).length ∧
    get_overview exs uid none none now =
      get_overview exs uid (some (now - 86400)) (some now) now := by
  refine ⟨?_, overview_total_executions exs uid s e now,
    overview_default_window exs uid now⟩
  simp [currentExecs, List.mem_filter, and_assoc]

/-- C6: the overview's estimated monthly cost is
`total_cost * 30` when the window length is exactly one day, and in general
`total_cost * 30 / max(window_length_days, 1)` with the floored day count. -/
theorem C6_estimated_monthly_cost (exs : List AgentExecution)
    (uid : Option Nat) (s e now : Int) :
    (e - s = 86400 →
      (get_overview exs uid (some s) (some e) now).estimated_monthly_cost_usd =
        (get_overview exs uid (some s) (some e) now).total_cost_usd * 30) ∧
    (get_overview exs uid (some s) (some e) now).estimated_monthly_cost_usd =
      (get_overview exs uid (some s) (some e) now).total_cost_usd * 30 /
        ((max (Int.fdiv (e - s) 86400) 1 : Int) : ℚ) := by
  constructor
  · intro h
    rw [overview_estimated_monthly, overview_total_cost, h]
    simp only [estimatedMonthly]
    rw [show Int.fdiv (86400 : Int) 86400 = 1 from by decide]
    simp
  · rw [overview_estimated_monthly, overview_total_cost]
    simp only [estimatedMonthly]
    by_cases hd : Int.fdiv (e - s) 86400 = 1
    · rw [if_pos hd, hd]
      norm_num
    · rw [if_neg hd]

/-- C6 witness: on the one-day window `[0, 86400]` the estimate is exactly
`total_cost * 30`. -/
theorem C6_estimated_monthly_cost_witness :
    (get_overview [exSuccess30] none (some 0) (some 86400)
        0).estimated_monthly_cost_usd =
      (get_overview [exSuccess30] none (some 0) (some 86400)
        0).total_cost_usd * 30 :=
  (C6_estimated_monthly_cost [exSuccess30] none 0 86400 0).1 (by decide)

/-- Characterization of the forecast's trend string in terms of the change
percentage. -/
theorem trendString_spec (c : ℚ) :
    ((if 10 < c then "increasing" else if c < -10 then "decreasing"
        else "stable") = "increasing" ↔ 10 < c) ∧
    ((if 10 < c then "increasing" else if c < -10 then "decreasing"
        else "stable") = "decreasing" ↔ c < -10) ∧
    ((if 10 < c then "increasing" else if c < -10 then "decreasing"
        else "stable") = "stable" ↔ (c ≤ 10 ∧ -10 ≤ c)) := by
  by_cases h1 : 10 < c
  · rw [if_pos h1]
    refine ⟨by simp [h1], ?_, ?_⟩
    · constructor
      · intro h
        exact absurd h (by decide)
      · intro h
        linarith
    · constructor
      · intro h
        exact absurd h (by decide)
      · intro h
        linarith
  · rw [if_neg h1]
    by_cases h2 : c < -10
    · rw [if_pos h2]
      refine ⟨?_, by simp [h2], ?_⟩
      · constructor
        · intro h
          exact absurd h (by decide)
        · intro h
          exact absurd h h1
      · constructor
        · intro h
          exact absurd h (by decide)
        · intro h
          linarith
    · rw [if_neg h2]
      refine ⟨?_, ?_, ?_⟩
      · constructor
        · intro h
          exact absurd h (by decide)
        · intro h
          exact absurd h h1
      · constructor
        · intro h
          exact absurd h (by decide)
        · intro h
          exact absurd h h2
      · constructor
        · intro _
          exact ⟨le_of_not_lt h1, le_of_not_lt h2⟩
        · intro _
          rfl

/-- C7: the cost forecast compares the last 7 days to the preceding 7 days;
with a positive baseline the reported change is `(current - prev)/prev · 100`
and the trend is `"increasing"` iff that change exceeds 10, `"decreasing"`
iff it is below -10, `"stable"` otherwise; with a zero baseline the change is
reported as 0 and the trend is `"stable"`; the daily average is the current
7-day cost divided by 7, and the monthly projection is that average times
30. -/
theorem C7_cost_forecast (exs : List AgentExecution) (uid : Option Nat)
    (now : Int) (f : CostForecast) (cur prev : ℚ)
    (hf : f = get_cost_forecast exs uid now)
    (hcur : cur = sumCost (forecastCurrentExecs exs uid now))
    (hprev : prev = sumCost (forecastPrevExecs exs uid now)) :
    f.current_period_cost_usd = cur ∧
    f.daily_average_cost_usd = cur / 7 ∧
    f.projected_weekly_cost_usd = cur ∧
    f.projected_monthly_cost_usd = cur / 7 * 30 ∧
    (prev = 0 → f.trend_percentage = 0 ∧ f.cost_trend = "stable") ∧
    (0 < prev →
      f.trend_percentage = (cur - prev) / prev * 100 ∧
      (f.cost_trend = "increasing" ↔ 10 < f.trend_percentage) ∧
      (f.cost_trend = "decreasing" ↔ f.trend_percentage < -10) ∧
      (f.cost_trend = "stable" ↔
        (f.trend_percentage ≤ 10 ∧ -10 ≤ f.trend_percentage))) := by
  subst hf
  subst hcur
  subst hprev
  unfold get_cost_forecast
  by_cases hp : 0 < sumCost (forecastPrevExecs exs uid now)
  · rw [if_pos hp]
    refine ⟨rfl, rfl, rfl, rfl, ?_, ?_⟩
    · intro h0
      rw [h0] at hp
      exact absurd hp (lt_irrefl 0)
    · intro _
      exact ⟨rfl, (trendString_spec _).1, (trendString_spec _).2.1,
        (trendString_spec _).2.2⟩
  · rw [if_neg hp]
    refine ⟨rfl, rfl, rfl, rfl, ?_, ?_⟩
    · intro _
      exact ⟨rfl, rfl⟩
    · intro h
      exact absurd h hp

/-- C7 witness: with an empty execution table the baseline is 0, the change
is reported as 0 and the trend is `"stable"`. -/
theorem C7_cost_forecast_witness :
    (get_cost_forecast [] none 0).trend_percentage = 0 ∧
    (get_cost_forecast [] none 0).cost_trend = "stable" :=
  (C7_cost_forecast [] none 0 (get_cost_forecast [] none 0)
    (sumCost (forecastCurrentExecs [] none 0))
    (sumCost (forecastPrevExecs [] none 0)) rfl rfl rfl).2.2.2.2.1 rfl

/-- `total` of `list_paginated` is the filtered row count, for every page. -/
theorem list_paginated_total (exs : List AgentExecution) (f : ExecutionFilters)
    (page page_size : Nat) (key : AgentExecution → Int) (d : Bool) :
    (list_paginated exs f page page_size key d).total =
      (exs.filter (matchesFilters f)).length := rfl

/-- `total_pages` of `list_paginated` is `(total + page_size - 1) //
page_size`. -/
theorem list_paginated_total_pages (exs : List AgentExecution)
    (f : ExecutionFilters) (page page_size : Nat)
    (key : AgentExecution → Int) (d : Bool) :
    (list_paginated exs f page page_size key d).total_pages =
      ((exs.filter (matchesFilters f)).length + page_size - 1) / page_size := rfl

/-- Python's `(t + p - 1) // p` is the ceiling of the exact quotient `t / p`
(for a positive page size). -/
theorem add_pred_div_eq_ceil (t p : Nat) (hp : 1 ≤ p) :
    (((t + p - 1) / p : Nat) : Int) = Int.ceil ((t : ℚ) / (p : ℚ)) := by
  have hp0 : 0 < p := hp
  have hP : (0 : ℚ) < (p : ℚ) := by exact_mod_cast hp0
  rw [eq_comm, Int.ceil_eq_iff]
  have hdm := Nat.div_add_mod (t + p - 1) p
  have hmlt : (t + p - 1) % p < p := Nat.mod_lt _ hp0
  have hA : t ≤ p * ((t + p - 1) / p) := by omega
  have hB : p * ((t + p - 1) / p) < t + p := by omega
  constructor
  · rw [Int.cast_natCast, lt_div_iff₀ hP]
    have hB' : (p : ℚ) * (((t + p - 1) / p : Nat) : ℚ) < (t : ℚ) + (p : ℚ) := by
      exact_mod_cast hB
    nlinarith
  · rw [Int.cast_natCast, div_le_iff₀ hP]
    have hA' : (t : ℚ) ≤ (p : ℚ) * (((t + p - 1) / p : Nat) : ℚ) := by
      exact_mod_cast hA
    nlinarith

/-- C8: for page size `p ≥ 1` and page `≥ 1`, the paginated listing returns at
most `p` items, reports `total_pages = ⌈total / p⌉`, reports `total` as the
full filtered count on every page, and a page beyond the last yields an empty
item list (with the total unchanged by the previous conjunct). -/
theorem C8_pagination (exs : List AgentExecution) (f : ExecutionFilters)
    (page psize : Nat) (key : AgentExecution → Int) (d : Bool)
    (hpage : 1 ≤ page) (hsize : 1 ≤ psize) :
    (list_paginated exs f page psize key d).items.length ≤ psize ∧
    (((list_paginated exs f page psize key d).total_pages : Nat) : Int) =
      Int.ceil (((exs.filter (matchesFilters f)).length : ℚ) / (psize : ℚ)) ∧
    (list_paginated exs f page psize key d).total =
      (exs.filter (matchesFilters f)).length ∧
    ((list_paginated exs f page psize key d).total_pages < page →
      (list_paginated exs f page psize key d).items = []) := by
  refine ⟨?_, ?_, list_paginated_total exs f page psize key d, ?_⟩
  · show ((_ : List AgentExecution).take psize).length ≤ psize
    rw [List.length_take]
    exact min_le_left _ _
  · rw [list_paginated_total_pages]
    exact add_pred_div_eq_ceil _ _ hsize
  · intro hlt
    rw [list_paginated_total_pages] at hlt
    show ((_ : List AgentExecution).drop ((page - 1) * psize)).take psize = []
    have hp0 : 0 < psize := hsize
    have hdm := Nat.div_add_mod ((exs.filter (matchesFilters f)).length + psize - 1) psize
    have hmlt : ((exs.filter (matchesFilters f)).length + psize - 1) % psize < psize :=
      Nat.mod_lt _ hp0
    have hA : (exs.filter (matchesFilters f)).length ≤
        psize * (((exs.filter (matchesFilters f)).length + psize - 1) / psize) := by
      omega
    have hlen :
        (if d then List.insertionSort (fun a b => key b ≤ key a)
            (exs.filter (matchesFilters f))
          else List.insertionSort (fun a b => key a ≤ key b)
            (exs.filter (matchesFilters f))).length =
          (exs.filter (matchesFilters f)).length := by
      by_cases hd : d
      · rw [if_pos hd]
        exact (List.perm_insertionSort _ _).length_eq
      · rw [if_neg hd]
        exact (List.perm_insertionSort _ _).length_eq
    have hoffset : (exs.filter (matchesFilters f)).length ≤ (page - 1) * psize := by
      have h1 : ((exs.filter (matchesFilters f)).length + psize - 1) / psize ≤ page - 1 := by
        omega
      calc (exs.filter (matchesFilters f)).length
          ≤ psize * (((exs.filter (matchesFilters f)).length + psize - 1) / psize) := hA
        _ ≤ psize * (page - 1) := Nat.mul_le_mul_left _ h1
        _ = (page - 1) * psize := Nat.mul_comm _ _
    have hdrop : (if d then List.insertionSort (fun a b => key b ≤ key a)
            (exs.filter (matchesFilters f))
          else List.insertionSort (fun a b => key a ≤ key b)
            (exs.filter (matchesFilters f))).drop ((page - 1) * psize) = [] := by
      apply List.drop_eq_nil_of_le
      rw [hlen]
      exact hoffset
    rw [hdrop, List.take_nil]

/-- C8 witness: with three matching rows and page size 2, page 1 returns at
most 2 items, `total_pages = ⌈3/2⌉ = 2`, and page 3 (beyond range) returns an
empty list with the same reported total. -/
theorem C8_pagination_witness :
    (list_paginated [exSuccess30, exSuccess10, exFailure20] {} 3 2
        (·.started_at) true).items = [] ∧
    (list_paginated [exSuccess30, exSuccess10, exFailure20] {} 3 2
        (·.started_at) true).total = 3 := by
  have h := C8_pagination [exSuccess30, exSuccess10, exFailure20] {} 3 2
    (·.started_at) true (by decide) (by decide)
  refine ⟨h.2.2.2 (by decide), ?_⟩
  rw [h.2.2.1]
  decide

/-- Sorting (in either direction) preserves the row count. -/
theorem sorted_length (matched : List AgentExecution)
    (key : AgentExecution → Int) (d : Bool) :
    (if d then List.insertionSort (fun a b => key b ≤ key a) matched
      else List.insertionSort (fun a b => key a ≤ key b) matched).length =
      matched.length := by
  by_cases hd : d
  · rw [if_pos hd]
    exact (List.perm_insertionSort _ _).length_eq
  · rw [if_neg hd]
    exact (List.perm_insertionSort _ _).length_eq

/-- Filtering a replicated row with a satisfied predicate keeps every copy. -/
theorem length_filter_replicate_pos {α : Type} (n : Nat) (a : α)
    (p : α → Bool) (hpa : p a = true) :
    ((List.replicate n a).filter p).length = n := by
  induction n with
  | zero => rfl
  | succ k ih =>
    rw [List.replicate_succ, List.filter_cons_of_pos hpa, List.length_cons, ih]

/-- C9: the export returns at most 10,000 records — exactly
`min 10000 total` — while `total_records` reports the full matching count;
when more than 10,000 executions match, exactly 10,000 records are exported
and the excess ones are omitted. -/
theorem C9_export_record_cap (exs : List AgentExecution) (uid : Nat)
    (s e : Option Int) (key : AgentExecution → Int) (d : Bool) :
    (export_analytics_data exs uid s e key d).1.length =
      min 10000 (export_analytics_data exs uid s e key d).2 ∧
    (export_analytics_data exs uid s e key d).2 =
      (exs.filter (matchesFilters
        { user_id := some uid, start_date := s, end_date := e })).length ∧
    (10000 < (export_analytics_data exs uid s e key d).2 →
      (export_analytics_data exs uid s e key d).1.length = 10000 ∧
      (export_analytics_data exs uid s e key d).1.length <
        (export_analytics_data exs uid s e key d).2) := by
  have hitems : (export_analytics_data exs uid s e key d).1 =
      (if d then List.insertionSort (fun a b => key b ≤ key a)
          (exs.filter (matchesFilters
            { user_id := some uid, start_date := s, end_date := e }))
        else List.insertionSort (fun a b => key a ≤ key b)
          (exs.filter (matchesFilters
            { user_id := some uid, start_date := s, end_date := e }))).take
        10000 := rfl
  have htot : (export_analytics_data exs uid s e key d).2 =
      (exs.filter (matchesFilters
        { user_id := some uid, start_date := s, end_date := e })).length := rfl
  have hfst : (export_analytics_data exs uid s e key d).1.length =
      min 10000 (export_analytics_data exs uid s e key d).2 := by
    rw [hitems, htot, List.length_take, sorted_length]
  exact ⟨hfst, htot, fun h => ⟨by rw [hfst]; omega, by rw [hfst]; omega⟩⟩

/-- C9 witness: with 10,001 matching rows the export reports
`total_records = 10001` but returns exactly 10,000 records. -/
theorem C9_export_record_cap_witness :
    10000 < (export_analytics_data (List.replicate 10001 exSuccess30) 1 none none
      (·.started_at) true).2 ∧
    (export_analytics_data (List.replicate 10001 exSuccess30) 1 none none
      (·.started_at) true).1.length = 10000 := by
  have h := C9_export_record_cap (List.replicate 10001 exSuccess30) 1 none none
    (·.started_at) true
  have htot : (export_analytics_data (List.replicate 10001 exSuccess30) 1 none none
      (·.started_at) true).2 = 10001 := by
    rw [h.2.1]
    exact length_filter_replicate_pos 10001 exSuccess30 _ rfl
  have hgt : 10000 < (export_analytics_data (List.replicate 10001 exSuccess30) 1
      none none (·.started_at) true).2 := by
    rw [htot]
    omega
  exact ⟨hgt, (h.2.2 hgt).1⟩
